import Mathlib

/-!
Shallow embedding of the EBML/Matroska metadata parser in
`src/ext/adaptivedemux2/gstmatroska.c` (header `gstmatroska.h`).

Modelling conventions:
* `guint64` counters and decoded values are `Nat`; where 64-bit wrap-around
  is actually reachable (the unsigned subtraction in
  `gst_matroska_parser_read_data_len`) arithmetic is taken modulo `2^64`
  explicitly.  The `guint32 id` field truncation is modelled by `% 2^32`.
* The byte window supplied by the `GstAdapter` is a `List Nat`; a memory
  read is `byteAt`, which reduces each stored value modulo 256 (bytes are
  `guint8`).  A read at a position `≥ avail.length` corresponds to the C
  code reading past the region mapped by `gst_adapter_map` — undefined
  memory — and is modelled as the byte 0.
* The C loop in `gst_matroska_parser_extract_data` is translated with an
  explicit fuel argument (`avail.length + 1` at the entry point); each
  continuing iteration consumes at least one byte of the window, so the
  fuel never runs out on the path taken by the code.
-/

namespace GstMatroska

/-- The modulus `2^64` of `guint64` arithmetic. -/
def U64 : Nat := 18446744073709551616

/-- The modulus `2^32` of `guint32` arithmetic. -/
def U32 : Nat := 4294967296

/-- One byte of the mapped adapter window.  Stored values are reduced mod 256
(`guint8`); positions past the end of the window model the unmapped memory
the C code reads out of bounds, fixed here to the byte 0. -/
def byteAt (avail : List Nat) (i : Nat) : Nat :=
  (avail.getD i 0) % 256

/- EBML / Matroska element ids, from gstmatroska.c lines 42-69. -/

def GST_EBML_ID_HEADER : Nat := 0x1A45DFA3
def GST_MATROSKA_ID_SEGMENT : Nat := 0x18538067
def GST_MATROSKA_ID_CLUSTER : Nat := 0x1F43B675
def GST_MATROSKA_ID_SEEKHEAD : Nat := 0x114D9B74
def GST_MATROSKA_ID_SEGMENTINFO : Nat := 0x1549A966
def GST_MATROSKA_ID_TRACKS : Nat := 0x1654AE6B
def GST_MATROSKA_ID_CUES : Nat := 0x1C53BB6B
def GST_MATROSKA_ID_TIMECODESCALE : Nat := 0x2AD7B1
def GST_MATROSKA_ID_DURATION : Nat := 0x4489
def GST_MATROSKA_ID_POINTENTRY : Nat := 0xBB
def GST_MATROSKA_ID_CUETIME : Nat := 0xB3
def GST_MATROSKA_ID_CUETRACKPOSITION : Nat := 0xB7
def GST_MATROSKA_ID_CUETRACK : Nat := 0xF7
def GST_MATROSKA_ID_CUECLUSTERPOSITION : Nat := 0xF1

/-- Model of `gst_matroska_parser_read_len` (gstmatroska.c lines 91-101): the loop
`for (i = 0; i < 8; i++) if (data & (0x80 >> i)) break; return i + 1;`
unrolled.  Returns the 1-indexed position of the first set bit scanning from
bit 7 down to bit 0, and 9 when no bit among the top 8 is set. -/
def gst_matroska_parser_read_len (data : Nat) : Nat :=
  if data &&& 0x80 ≠ 0 then 1
  else if data &&& 0x40 ≠ 0 then 2
  else if data &&& 0x20 ≠ 0 then 3
  else if data &&& 0x10 ≠ 0 then 4
  else if data &&& 0x08 ≠ 0 then 5
  else if data &&& 0x04 ≠ 0 then 6
  else if data &&& 0x02 ≠ 0 then 7
  else if data &&& 0x01 ≠ 0 then 8
  else 9

/-- Big-endian accumulation `data = (data << 8) | *p++` over `n` bytes
starting at `pos`, from seed `seed`, in `guint64` arithmetic.  Since
`data << 8` has low byte zero and each byte is `< 256`, the C bitwise or
is addition. -/
def be_accum (avail : List Nat) (pos n seed : Nat) : Nat :=
  (List.range n).foldl (fun d k => (d * 256 % U64 + byteAt avail (pos + k)) % U64) seed

/-- Model of `gst_matroska_parser_read_data` (lines 103-119): plain big-endian
concatenation of `len` bytes at `pos`; returns 0 on the guard
`!p || !len || len > 8` (the null-pointer case does not arise in the
embedding: the window is always a value). -/
def gst_matroska_parser_read_data (avail : List Nat) (pos len : Nat) : Nat :=
  if len = 0 ∨ 8 < len then 0
  else be_accum avail pos len 0

/-- Model of `gst_matroska_parser_read_data_len` (lines 121-139): reads the first
byte, subtracts the length-marker bit `1 << (8 - len)` in `guint64`
arithmetic (wrapping below zero), then accumulates the remaining `len - 1`
bytes big-endian. -/
def gst_matroska_parser_read_data_len (avail : List Nat) (pos len : Nat) : Nat :=
  if len = 0 ∨ 8 < len then 0
  else be_accum avail (pos + 1) (len - 1)
    ((byteAt avail pos + (U64 - 2 ^ (8 - len))) % U64)

/-- The `unknown_length` table of `gst_matroska_read_one_ebml_info`
(lines 149-152), indexed as in the C by `len - 1`. -/
def unknown_length (len : Nat) : Nat :=
  [0x7F, 0x3FFF, 0x1FFFFF, 0x0FFFFFFF, 0x07FFFFFFFF, 0x03FFFFFFFFFF,
   0x01FFFFFFFFFFFF, 0x00FFFFFFFFFFFFFF].getD (len - 1) 0

/-- The unknown-length sentinel `0x7FFFFFFFFFFFFFFF` (line 191). -/
def UNKNOWN_SIZE : Nat := 0x7FFFFFFFFFFFFFFF

/-- Model of `GstMatroskaEbmlInfo` (gstmatroska.h lines 33-39).  `data_pos` models the
`data_buf` pointer as the absolute position of the payload in the window. -/
structure GstMatroskaEbmlInfo where
  id : Nat
  size : Nat
  data_offset : Nat
  data_pos : Nat
  deriving DecidableEq, Repr

/-- Model of `gst_matroska_read_one_ebml_info` (lines 141-203).  `none` models the
`return 0` paths (null/empty guard, window too short for a field, or a field
length above 8); on success the returned `Nat` is `bytes` =
id length + size length + (possibly sentinel-substituted) size.  The C checks
`!consume || (len < consume)` in the caller; `none` is the `!consume` case. -/
def gst_matroska_read_one_ebml_info (avail : List Nat) (pos wsize : Nat) :
    Option (Nat × GstMatroskaEbmlInfo) :=
  if wsize = 0 then none
  else
    let lenId := gst_matroska_parser_read_len (byteAt avail pos)
    if wsize ≤ lenId ∨ 8 < lenId then none
    else
      let id := gst_matroska_parser_read_data avail pos lenId % U32
      let rem := wsize - lenId
      let lenSz := gst_matroska_parser_read_len (byteAt avail (pos + lenId))
      if rem ≤ lenSz ∨ 8 < lenSz then none
      else
        let raw := gst_matroska_parser_read_data_len avail (pos + lenId) lenSz
        let sz := if unknown_length lenSz = raw then UNKNOWN_SIZE else raw
        some (lenId + lenSz + sz,
          { id := id, size := sz, data_offset := lenId + lenSz,
            data_pos := pos + lenId + lenSz })

/-- Model of `GstMatroskaParserResult` (gstmatroska.h lines 41-49). -/
inductive GstMatroskaParserResult where
  | ok
  | done
  | not_supported
  | error_param
  | insufficient_data
  | error
  deriving DecidableEq, Repr

/-- Model of `GstMatroskaParserStatus` (gstmatroska.h lines 51-57). -/
inductive GstMatroskaParserStatus where
  | init
  | header
  | data
  | finished
  deriving DecidableEq, Repr

/-- Model of `GstMatroskaTrackPosType` (gstmatroska.h lines 59-63). -/
structure GstMatroskaTrackPosType where
  track : Nat := 0
  cluster_pos : Nat := 0
  deriving DecidableEq, Repr

/-- Model of `GstMatroskaPointData` (gstmatroska.h lines 65-69). -/
structure GstMatroskaPointData where
  cue_time : Nat := 0
  track_pos : GstMatroskaTrackPosType := {}
  deriving DecidableEq, Repr

/-- Model of `GstMatroskaParser` (gstmatroska.h lines 71-93).  The `GArray *array` is
a list of cue points (NULL and the empty array are conflated, which matches
every use: the C code only tests the pointer together with
`cue_point_num`). -/
structure GstMatroskaParser where
  len : Nat := 0
  segment_offset : Nat := 0
  segment_head_offset : Nat := 0
  time_scale : Nat := 0
  duration : Nat := 0
  offset : Nat := 0
  consume : Nat := 0
  cue_point_num : Nat := 0
  array : List GstMatroskaPointData := []
  status : GstMatroskaParserStatus := GstMatroskaParserStatus.init
  is_discard_ebml_header : Bool := false
  total_length : Nat := 0
  deriving DecidableEq, Repr

/-- The all-zero parser produced by `gst_matroska_parser_init`
(gstmatroska.c lines 71-79): `memset (parser, 0, sizeof (GstMatroskaParser))`. -/
def parser_zero : GstMatroskaParser := {}

/-- Model of `gst_matroska_parser_check_id` (lines 205-226): insufficient data when
fewer than `len` bytes are buffered, `not_supported` when the first `len`
bytes do not spell `id`, otherwise `ok`. -/
def gst_matroska_parser_check_id (avail : List Nat) (id len : Nat) :
    GstMatroskaParserResult :=
  if avail.length < len then GstMatroskaParserResult.insufficient_data
  else if gst_matroska_parser_read_data avail 0 len ≠ id then
    GstMatroskaParserResult.not_supported
  else GstMatroskaParserResult.ok

/-- Lines 248-257: for Segment, Cues and Cluster the payload size is removed
from `consume` before the integrity check, so only the element header needs
to be buffered. -/
def adjust_consume (consume : Nat) (info : GstMatroskaEbmlInfo) : Nat :=
  if (info.id = GST_MATROSKA_ID_SEGMENT ∨ info.id = GST_MATROSKA_ID_CUES ∨
      info.id = GST_MATROSKA_ID_CLUSTER) ∧ info.size < consume then
    consume - info.size
  else consume

/-- Lines 260-263: on the insufficient-data exit the cursor is stored back
only when it is non-zero (`if (offset) parser->offset = offset;`). -/
def save_offset (p : GstMatroskaParser) (offset : Nat) : GstMatroskaParser :=
  if offset ≠ 0 then { p with offset := offset } else p

/-- Lines 272-276 together with the `if (entry)` guards in the switch: the
current cue (`&g_array_index (parser->array, ..., cue_point_num - 1)`) is
updated through `f` only when both the array and the counter are non-empty;
otherwise nothing is written. -/
def update_entry (p : GstMatroskaParser) (f : GstMatroskaPointData → GstMatroskaPointData) :
    GstMatroskaParser :=
  if p.array ≠ [] ∧ p.cue_point_num ≠ 0 then
    let e := f (p.array.getD (p.cue_point_num - 1) {})
    { p with array := p.array.set (p.cue_point_num - 1) e }
  else p

/-- The `switch (embl_info.id)` dispatch (lines 278-395).  `none` models the
`GST_MATROSKA_ID_CLUSTER` case's early `return GST_MATROSKA_PARSER_DONE`
(nothing is written before that return); `some (p', c')` is the updated
parser and the possibly rewritten `consume` for all other cases. -/
def dispatch (p : GstMatroskaParser) (avail : List Nat)
    (info : GstMatroskaEbmlInfo) (consume : Nat) :
    Option (GstMatroskaParser × Nat) :=
  if info.id = GST_EBML_ID_HEADER then
    some ({ p with consume := 0 }, consume)
  else if info.id = GST_MATROSKA_ID_SEGMENT then
    some ({ p with segment_offset := p.consume }, info.data_offset)
  else if info.id = GST_MATROSKA_ID_SEEKHEAD then
    some ({ p with segment_head_offset := p.consume }, consume)
  else if info.id = GST_MATROSKA_ID_SEGMENTINFO then
    some (p, info.data_offset)
  else if info.id = GST_MATROSKA_ID_TIMECODESCALE then
    let v := gst_matroska_parser_read_data avail info.data_pos info.size
    some ({ p with time_scale := v }, consume)
  else if info.id = GST_MATROSKA_ID_DURATION then
    let v := gst_matroska_parser_read_data avail info.data_pos info.size
    some ({ p with duration := v }, consume)
  else if info.id = GST_MATROSKA_ID_CUES then
    let l := p.consume + info.data_offset + info.size
    some ({ p with len := l }, info.data_offset)
  else if info.id = GST_MATROSKA_ID_POINTENTRY then
    let a := p.array ++ [({} : GstMatroskaPointData)]
    let n := p.cue_point_num + 1
    some ({ p with array := a, cue_point_num := n }, info.data_offset)
  else if info.id = GST_MATROSKA_ID_CUETIME then
    let v := gst_matroska_parser_read_data avail info.data_pos info.size
    some (update_entry p (fun e => { e with cue_time := v }), consume)
  else if info.id = GST_MATROSKA_ID_CUETRACKPOSITION then
    some (p, info.data_offset)
  else if info.id = GST_MATROSKA_ID_CUECLUSTERPOSITION then
    let v := gst_matroska_parser_read_data avail info.data_pos info.size
    some (update_entry p (fun e => { e with track_pos := { e.track_pos with cluster_pos := v } }), consume)
  else if info.id = GST_MATROSKA_ID_CUETRACK then
    let v := gst_matroska_parser_read_data avail info.data_pos info.size
    some (update_entry p (fun e => { e with track_pos := { e.track_pos with track := v } }), consume)
  else if info.id = GST_MATROSKA_ID_CLUSTER then
    none
  else
    some (p, consume)

/-- The `while (TRUE)` loop of `gst_matroska_parser_extract_data`
(lines 244-411), with an explicit fuel.  The second component of the result
is a ghost flag recording whether an EBML-Header element was dispatched
during the loop; it is not part of the C state and is only observed by
theorems.  Exits:
* read failure or `len < consume` → `(ok, save_offset p offset)` (lines 260-270);
* `dispatch = none` (Cluster) → `(done, p)` with nothing saved (lines 380-386);
* `parser->len` set and reached → `(done, ...)` with the cursor saved
  (lines 400-410);
* fuel exhausted → `(ok, p)`, a branch the code never reaches because every
  continuing iteration consumes at least one byte of `lenW`. -/
def extract_loop (avail : List Nat) :
    Nat → GstMatroskaParser → Nat → Nat →
    (GstMatroskaParserResult × GstMatroskaParser) × Bool
  | 0, p, _, _ => ((GstMatroskaParserResult.ok, p), false)
  | fuel + 1, p, offset, lenW =>
    match gst_matroska_read_one_ebml_info avail offset lenW with
    | none => ((GstMatroskaParserResult.ok, save_offset p offset), false)
    | some (consume0, info) =>
      let consume := adjust_consume consume0 info
      if lenW < consume then
        ((GstMatroskaParserResult.ok, save_offset p offset), false)
      else
        match dispatch p avail info consume with
        | none => ((GstMatroskaParserResult.done, p), false)
        | some (p1, consume1) =>
          let p2 := { p1 with consume := p1.consume + consume1 }
          let offset1 := offset + consume1
          let sawHdr := info.id == GST_EBML_ID_HEADER
          if p2.len ≠ 0 ∧ p2.len ≤ p2.consume then
            ((GstMatroskaParserResult.done, { p2 with offset := offset1 }), sawHdr)
          else
            let r := extract_loop avail fuel p2 offset1 (lenW - consume1)
            (r.1, sawHdr || r.2)

/-- Model of `gst_matroska_parser_extract_data` (lines 228-415) with the ghost
header-dispatch flag.  The window length passed to each header read is the
*total* adapter length decremented only by bytes consumed in this
invocation, exactly as in the C (`len` at line 242 versus `offset` at
line 235). -/
def extract_dataG (p : GstMatroskaParser) (avail : List Nat) :
    (GstMatroskaParserResult × GstMatroskaParser) × Bool :=
  extract_loop avail (avail.length + 1) p p.offset avail.length

/-- Model of `gst_matroska_parser_extract_data` proper (the C function's observable
result). -/
def gst_matroska_parser_extract_data (p : GstMatroskaParser) (avail : List Nat) :
    GstMatroskaParserResult × GstMatroskaParser :=
  (extract_dataG p avail).1

/-- The `GST_MATROSKA_PARSER_STATUS_DATA` stage of the entry switch
(lines 443-450): run extraction; anything but `done` returns as-is, `done`
moves the status to finished and falls through to the `FINISHED` break. -/
def stage_data (p : GstMatroskaParser) (avail : List Nat) :
    GstMatroskaParserResult × GstMatroskaParser :=
  match gst_matroska_parser_extract_data p avail with
  | (GstMatroskaParserResult.done, p') =>
    (GstMatroskaParserResult.done, { p' with status := GstMatroskaParserStatus.finished })
  | r => r

/-- The `GST_MATROSKA_PARSER_STATUS_HEADER` stage (lines 434-442): check the
4-byte EBML header id, return on failure, otherwise move to `DATA` and fall
through. -/
def stage_header (p : GstMatroskaParser) (avail : List Nat) :
    GstMatroskaParserResult × GstMatroskaParser :=
  match gst_matroska_parser_check_id avail GST_EBML_ID_HEADER 4 with
  | GstMatroskaParserResult.ok =>
    stage_data { p with status := GstMatroskaParserStatus.data } avail
  | r => (r, p)

/-- Model of `gst_matroska_parser_entry` on a non-NULL parser and adapter
(lines 428-456).  The C switch falls through `INIT → HEADER → DATA →
FINISHED`; each arm here chains to the next stage explicitly. -/
def parser_entry_core (p : GstMatroskaParser) (avail : List Nat) :
    GstMatroskaParserResult × GstMatroskaParser :=
  match p.status with
  | GstMatroskaParserStatus.init =>
    stage_header { parser_zero with status := GstMatroskaParserStatus.header } avail
  | GstMatroskaParserStatus.header => stage_header p avail
  | GstMatroskaParserStatus.data => stage_data p avail
  | GstMatroskaParserStatus.finished => (GstMatroskaParserResult.ok, p)

/-- Model of `gst_matroska_parser_entry` (lines 417-457) including the NULL-argument
guard at lines 423-426, which returns `GST_MATROSKA_PARSER_NOT_SUPPORTED`.
`none` models a NULL parser / adapter. -/
def gst_matroska_parser_entry (p : Option GstMatroskaParser)
    (adapter : Option (List Nat)) :
    GstMatroskaParserResult × Option GstMatroskaParser :=
  match p, adapter with
  | some p, some avail =>
    let r := parser_entry_core p avail
    (r.1, some r.2)
  | p, _ => (GstMatroskaParserResult.not_supported, p)

/-- Modelled from the spec (§4.1): `decodeMasked(bytes, length)` — "as
`decodeRaw` but the leading byte has its top `length` marker bits (the ones
that encoded the length) cleared before concatenation".  Clearing the top
`length` bits of a byte is reduction modulo `2 ^ (8 - length)`; the guard
mirrors the `ParamError` cases of the codec contract. -/
def decodeMasked_spec (avail : List Nat) (pos len : Nat) : Nat :=
  if len = 0 ∨ 8 < len then 0
  else be_accum avail (pos + 1) (len - 1) (byteAt avail pos % 2 ^ (8 - len))

/-- A sequence of `feed` invocations starting from the zeroed parser, each
supplying the byte window buffered at that call. -/
def run_feeds (ws : List (List Nat)) : GstMatroskaParser :=
  ws.foldl (fun p w => (parser_entry_core p w).2) parser_zero

/-- The byte-at-a-time feeding schedule for a stream: the k-th invocation
sees the first k+1 bytes (the adapter keeps all bytes; the caller appends
one byte before each call). -/
def byte_prefixes (stream : List Nat) : List (List Nat) :=
  (List.range stream.length).map (fun k => stream.take (k + 1))

/-- A complete pre-Cluster Matroska stream: EBML header (5 bytes), Segment
header (size 18), SegmentInfo (size 7) holding a TimecodeScale leaf with
payload `0F 42 40` = 1000000, then a Cluster header with one payload
byte. -/
def mkv_stream : List Nat :=
  [0x1A, 0x45, 0xDF, 0xA3, 0x80,
   0x18, 0x53, 0x80, 0x67, 0x92,
   0x15, 0x49, 0xA9, 0x66, 0x87,
   0x2A, 0xD7, 0xB1, 0x83, 0x0F, 0x42, 0x40,
   0x1F, 0x43, 0xB6, 0x75, 0x81, 0x00]

/-- EBML header, then a Cues master (size 16) whose first child is a Cluster
element, then a trailing byte: completion fires on the Cluster while the
consumed count is still below the recorded end of the Cues region. -/
def cues_cluster_stream : List Nat :=
  [0x1A, 0x45, 0xDF, 0xA3, 0x80,
   0x1C, 0x53, 0xBB, 0x6B, 0x90,
   0x1F, 0x43, 0xB6, 0x75, 0x81, 0x00,
   0xAA]

/-- EBML header, a SeekHead element with a 5-byte payload, a second EBML
header element, and a trailing byte: dispatching the second EBML header
resets the cumulative consumed counter. -/
def seekhead_header_stream : List Nat :=
  [0x1A, 0x45, 0xDF, 0xA3, 0x80,
   0x11, 0x4D, 0x9B, 0x74, 0x85, 0x00, 0x00, 0x00, 0x00, 0x00,
   0x1A, 0x45, 0xDF, 0xA3, 0x80,
   0xAA]

/-! ## Helper lemmas -/

theorem read_len_pos (b : Nat) : 1 ≤ gst_matroska_parser_read_len b := by
  unfold gst_matroska_parser_read_len
  repeat' split
  all_goals omega

theorem byteAt_lt (avail : List Nat) (i : Nat) : byteAt avail i < 256 :=
  Nat.mod_lt _ (by omega)

set_option maxRecDepth 4000 in
/-- For any byte and any length in 1..8, if the byte's decoded length prefix
is that length then the byte's top `len` bits spell exactly the marker
`0…01`, i.e. `b / 2 ^ (8 - len) = 1`. -/
theorem read_len_marker (b : Nat) (hb : b < 256) (len : Nat) (hlen : len < 9)
    (h : gst_matroska_parser_read_len b = len) : b / 2 ^ (8 - len) = 1 := by
  revert h; revert hlen; revert len; revert hb; revert b
  decide

theorem unknown_length_ne_sentinel (len : Nat) (h1 : 1 ≤ len) (h8 : len ≤ 8) :
    unknown_length len ≠ UNKNOWN_SIZE := by
  interval_cases len <;> decide

/-! ## C5 — decodeLengthPrefix -/

/-- C5: for every byte with a set bit, `gst_matroska_parser_read_len` returns
the 1-indexed position of the first set bit scanning from bit 7 down to
bit 0 (a value in 1..8); for the byte 0 it returns the out-of-range failure
value 9 (the `LengthError` of the spec: every caller rejects a result `> 8`),
never a value in 1..8. -/
theorem c5_read_len_first_set_bit (b : Nat) (hb : b < 256) :
    (b ≠ 0 →
      1 ≤ gst_matroska_parser_read_len b ∧ gst_matroska_parser_read_len b ≤ 8 ∧
      Nat.testBit b (8 - gst_matroska_parser_read_len b) = true ∧
      (∀ j, j < 8 → 8 - gst_matroska_parser_read_len b < j → Nat.testBit b j = false)) ∧
    (b = 0 →
      gst_matroska_parser_read_len b = 9 ∧
      ¬(1 ≤ gst_matroska_parser_read_len b ∧ gst_matroska_parser_read_len b ≤ 8)) := by
  revert hb; revert b
  set_option maxRecDepth 4000 in decide

theorem c5_read_len_first_set_bit_witness :
    (1 ≤ gst_matroska_parser_read_len 0x2A ∧ gst_matroska_parser_read_len 0x2A ≤ 8 ∧
      Nat.testBit 0x2A (8 - gst_matroska_parser_read_len 0x2A) = true ∧
      (∀ j, j < 8 → 8 - gst_matroska_parser_read_len 0x2A < j →
        Nat.testBit 0x2A j = false)) ∧
    (gst_matroska_parser_read_len 0 = 9 ∧
      ¬(1 ≤ gst_matroska_parser_read_len 0 ∧ gst_matroska_parser_read_len 0 ≤ 8)) :=
  ⟨(c5_read_len_first_set_bit 0x2A (by decide)).1 (by decide),
   (c5_read_len_first_set_bit 0 (by decide)).2 rfl⟩

/-! ## C4 — unknown-length sentinel -/

/-- C4: whenever `gst_matroska_read_one_ebml_info` succeeds, the reported
size is the sentinel `0x7FFFFFFFFFFFFFFF` exactly when the masked decode of
the size field equals the reserved all-data-bits pattern for its encoded
length (the `unknown_length` table, lengths 1..8), and is the decoded value
itself otherwise; the sentinel is never equal to the reserved pattern, so a
reserved pattern never comes back as its literal numeric value. -/
theorem c4_unknown_length_sentinel (avail : List Nat) (pos wsize c : Nat)
    (info : GstMatroskaEbmlInfo)
    (h : gst_matroska_read_one_ebml_info avail pos wsize = some (c, info)) :
    let lenId := gst_matroska_parser_read_len (byteAt avail pos)
    let lenSz := gst_matroska_parser_read_len (byteAt avail (pos + lenId))
    let raw := gst_matroska_parser_read_data_len avail (pos + lenId) lenSz
    1 ≤ lenSz ∧ lenSz ≤ 8 ∧
    info.size = (if unknown_length lenSz = raw then UNKNOWN_SIZE else raw) ∧
    (unknown_length lenSz = raw → info.size = UNKNOWN_SIZE ∧ info.size ≠ raw) ∧
    (unknown_length lenSz ≠ raw → info.size = raw) := by
  unfold gst_matroska_read_one_ebml_info at h
  dsimp only
  split at h
  · exact absurd h (by simp)
  · dsimp only at h
    split at h
    · exact absurd h (by simp)
    · split at h
      · exact absurd h (by simp)
      · rename_i hSz
        simp only [Option.some.injEq, Prod.mk.injEq] at h
        obtain ⟨-, hinfo⟩ := h
        subst hinfo
        have hpos := read_len_pos
          (byteAt avail (pos + gst_matroska_parser_read_len (byteAt avail pos)))
        refine ⟨hpos, by omega, rfl, ?_, ?_⟩
        · intro he
          have hne := unknown_length_ne_sentinel _ hpos (by omega)
          rw [if_pos he]
          exact ⟨rfl, by rw [← he]; exact fun hx => hne hx.symm⟩
        · intro he
          rw [if_neg he]

theorem c4_unknown_length_sentinel_witness :
    (let lenId := gst_matroska_parser_read_len (byteAt [0x80, 0xFF, 0x00] 0)
     let lenSz := gst_matroska_parser_read_len (byteAt [0x80, 0xFF, 0x00] (0 + lenId))
     let raw := gst_matroska_parser_read_data_len [0x80, 0xFF, 0x00] (0 + lenId) lenSz
     1 ≤ lenSz ∧ lenSz ≤ 8 ∧
     (GstMatroskaEbmlInfo.mk 0x80 UNKNOWN_SIZE 2 2).size =
       (if unknown_length lenSz = raw then UNKNOWN_SIZE else raw) ∧
     (unknown_length lenSz = raw →
       (GstMatroskaEbmlInfo.mk 0x80 UNKNOWN_SIZE 2 2).size = UNKNOWN_SIZE ∧
       (GstMatroskaEbmlInfo.mk 0x80 UNKNOWN_SIZE 2 2).size ≠ raw) ∧
     (unknown_length lenSz ≠ raw →
       (GstMatroskaEbmlInfo.mk 0x80 UNKNOWN_SIZE 2 2).size = raw)) :=
  c4_unknown_length_sentinel [0x80, 0xFF, 0x00] 0 3 9223372036854775809
    (GstMatroskaEbmlInfo.mk 0x80 UNKNOWN_SIZE 2 2) (by decide)

/-! ## C6 — decodeMasked versus masked decodeRaw -/

/-- C6 counterexample: for the byte sequence `[0x00]` and length 1 the C
masked decode subtracts the absent marker bit and wraps below zero in
`guint64` arithmetic, giving `2^64 - 128`, while the spec's
`decodeMasked` (clear the top marker bit, then concatenate) gives 0. -/
theorem c6_masked_subtract_counterexample :
    gst_matroska_parser_read_data_len [0x00] 0 1 ≠ decodeMasked_spec [0x00] 0 1 ∧
    gst_matroska_parser_read_data_len [0x00] 0 1 = 18446744073709551488 ∧
    decodeMasked_spec [0x00] 0 1 = 0 := by
  decide

/-- C6 (amended): for every byte sequence and every length in 1..8 *whose
leading byte actually carries the length marker for that length* (its
decoded length prefix is the given length, as at every call site),
`gst_matroska_parser_read_data_len` equals the spec's `decodeMasked`:
big-endian concatenation with the top `length` marker bits of the leading
byte cleared. -/
theorem c6_masked_eq_spec (avail : List Nat) (pos len : Nat)
    (h1 : 1 ≤ len) (h8 : len ≤ 8)
    (hm : gst_matroska_parser_read_len (byteAt avail pos) = len) :
    gst_matroska_parser_read_data_len avail pos len = decodeMasked_spec avail pos len := by
  have hb : byteAt avail pos < 256 := byteAt_lt avail pos
  have hdiv : byteAt avail pos / 2 ^ (8 - len) = 1 :=
    read_len_marker _ hb len (by omega) hm
  unfold gst_matroska_parser_read_data_len decodeMasked_spec
  rw [if_neg (by omega), if_neg (by omega)]
  congr 1
  have hk : 2 ^ (8 - len) ≤ 128 := by
    calc 2 ^ (8 - len) ≤ 2 ^ 7 := Nat.pow_le_pow_right (by omega) (by omega)
      _ = 128 := by norm_num
  have hsplit := Nat.div_add_mod (byteAt avail pos) (2 ^ (8 - len))
  rw [hdiv, Nat.mul_one] at hsplit
  have hr : byteAt avail pos % 2 ^ (8 - len) < 2 ^ (8 - len) :=
    Nat.mod_lt _ (Nat.pos_pow_of_pos _ (by omega))
  unfold U64
  omega

theorem c6_masked_eq_spec_witness :
    gst_matroska_parser_read_data_len [0x81, 0x05] 0 1 =
      decodeMasked_spec [0x81, 0x05] 0 1 :=
  c6_masked_eq_spec [0x81, 0x05] 0 1 (by decide) (by decide) (by decide)

/-! ## C1 — behaviour in the Finished status -/

theorem save_offset_self (p : GstMatroskaParser) : save_offset p p.offset = p := by
  unfold save_offset
  split <;> rfl

/-- C1 counterexample: a parser in the `FINISHED` status fed a window makes
`gst_matroska_parser_entry` return `GST_MATROSKA_PARSER_OK` — the result
variable's initial value, which the `FINISHED` case never overwrites — and
not `GST_MATROSKA_PARSER_DONE` as the claim states. -/
theorem c1_finished_returns_ok_counterexample :
    (gst_matroska_parser_entry
      (some { parser_zero with status := GstMatroskaParserStatus.finished })
      (some [0x1A, 0x45, 0xDF, 0xA3])).1 = GstMatroskaParserResult.ok ∧
    GstMatroskaParserResult.ok ≠ GstMatroskaParserResult.done := by
  decide

/-- C1 (amended): for every parser whose status is Finished and every byte
window, `gst_matroska_parser_entry` returns `Ok` (not `Done`) and leaves the
parser state — cue table included — completely unchanged. -/
theorem c1_finished_feed_noop (p : GstMatroskaParser) (avail : List Nat)
    (h : p.status = GstMatroskaParserStatus.finished) :
    gst_matroska_parser_entry (some p) (some avail) =
      (GstMatroskaParserResult.ok, some p) := by
  simp only [gst_matroska_parser_entry, parser_entry_core, h]

theorem c1_finished_feed_noop_witness :
    gst_matroska_parser_entry
      (some { parser_zero with status := GstMatroskaParserStatus.finished })
      (some [7, 7, 7]) =
      (GstMatroskaParserResult.ok,
       some { parser_zero with status := GstMatroskaParserStatus.finished }) :=
  c1_finished_feed_noop _ [7, 7, 7] rfl

/-! ## C2 — over-long varint fields -/

/-- C2 counterexample: the window starting with byte `0x00` makes
`gst_matroska_parser_read_len` report the field length 9 (> 8, the claim's
fatal-`DecodeError` situation, with plenty of bytes buffered so it is not a
short window), yet the entry returns `GST_MATROSKA_PARSER_OK` — the same
result as "need more data" — and never
`GST_MATROSKA_PARSER_ERROR`. -/
theorem c2_overlong_varint_counterexample :
    gst_matroska_parser_read_len 0x00 = 9 ∧
    (gst_matroska_parser_entry
      (some { parser_zero with status := GstMatroskaParserStatus.data })
      (some (0x00 :: List.replicate 20 0x55))).1 = GstMatroskaParserResult.ok ∧
    GstMatroskaParserResult.ok ≠ GstMatroskaParserResult.error := by
  decide

/-- An id field whose varint length prefix exceeds 8 makes the header reader
take the `return 0` path at lines 164-170 (second disjunct of
`(rem_size <= len) || (len > 8)`). -/
theorem read_overlong_id_none (avail : List Nat) (pos wsize : Nat)
    (h : 8 < gst_matroska_parser_read_len (byteAt avail pos)) :
    gst_matroska_read_one_ebml_info avail pos wsize = none := by
  unfold gst_matroska_read_one_ebml_info
  split
  · rfl
  · dsimp only
    rw [if_pos (Or.inr h)]

/-- A size field whose varint length prefix exceeds 8 makes the header
reader take a `return 0` path: either already at the id-field check, or at
the size-field check of lines 179-185. -/
theorem read_overlong_size_none (avail : List Nat) (pos wsize : Nat)
    (h : 8 < gst_matroska_parser_read_len
      (byteAt avail (pos + gst_matroska_parser_read_len (byteAt avail pos)))) :
    gst_matroska_read_one_ebml_info avail pos wsize = none := by
  unfold gst_matroska_read_one_ebml_info
  split
  · rfl
  · dsimp only
    by_cases h1 : wsize ≤ gst_matroska_parser_read_len (byteAt avail pos) ∨
        8 < gst_matroska_parser_read_len (byteAt avail pos)
    · rw [if_pos h1]
    · rw [if_neg h1]
      rw [if_pos (Or.inr h)]

/-- Whatever the loop state — in particular after earlier elements were
consumed in the same invocation — an element whose id or size field is
longer than 8 bytes ends the iteration exactly like insufficient data:
result `Ok`, cursor saved at the offending element's start (lines 259-270),
nothing of the element consumed. -/
theorem extract_loop_overlong_exit (avail : List Nat) (fuel : Nat)
    (p : GstMatroskaParser) (offset lenW : Nat)
    (h : 8 < gst_matroska_parser_read_len (byteAt avail offset) ∨
      8 < gst_matroska_parser_read_len
        (byteAt avail (offset + gst_matroska_parser_read_len (byteAt avail offset)))) :
    extract_loop avail (fuel + 1) p offset lenW =
      ((GstMatroskaParserResult.ok, save_offset p offset), false) := by
  have hn : gst_matroska_read_one_ebml_info avail offset lenW = none :=
    h.elim (read_overlong_id_none avail offset lenW)
      (read_overlong_size_none avail offset lenW)
  rw [extract_loop, hn]

/-- The extraction loop only ever produces `Ok` or `Done`. -/
theorem extract_loop_ne_error (avail : List Nat) (fuel : Nat) :
    ∀ p offset lenW,
      (extract_loop avail fuel p offset lenW).1.1 ≠ GstMatroskaParserResult.error := by
  induction fuel with
  | zero =>
    intro p offset lenW
    simp [extract_loop]
  | succ n ih =>
    intro p offset lenW
    rw [extract_loop]
    cases hre : gst_matroska_read_one_ebml_info avail offset lenW with
    | none => simp
    | some v =>
      rcases v with ⟨consume0, info⟩
      dsimp only
      split
      · simp
      · cases hd : dispatch p avail info (adjust_consume consume0 info) with
        | none => simp
        | some w =>
          rcases w with ⟨p1, c1⟩
          dsimp only
          split
          · simp
          · dsimp only
            exact ih _ _ _

theorem check_id_ne_error (avail : List Nat) (id len : Nat) :
    gst_matroska_parser_check_id avail id len ≠ GstMatroskaParserResult.error := by
  unfold gst_matroska_parser_check_id
  split
  · simp
  · split <;> simp

theorem stage_data_ne_error (p : GstMatroskaParser) (avail : List Nat) :
    (stage_data p avail).1 ≠ GstMatroskaParserResult.error := by
  have h := extract_loop_ne_error avail (avail.length + 1) p p.offset avail.length
  unfold stage_data gst_matroska_parser_extract_data extract_dataG
  rcases hE : (extract_loop avail (avail.length + 1) p p.offset avail.length).1 with ⟨res, p'⟩
  rw [hE] at h
  cases res <;> simp_all

theorem stage_header_ne_error (p : GstMatroskaParser) (avail : List Nat) :
    (stage_header p avail).1 ≠ GstMatroskaParserResult.error := by
  unfold stage_header
  cases hc : gst_matroska_parser_check_id avail GST_EBML_ID_HEADER 4
  case ok => exact stage_data_ne_error _ _
  case error => exact absurd hc (check_id_ne_error avail GST_EBML_ID_HEADER 4)
  all_goals simp

/-- `GST_MATROSKA_PARSER_ERROR` is never returned, on any input. -/
theorem parser_entry_ne_error (p : GstMatroskaParser) (avail : List Nat) :
    (parser_entry_core p avail).1 ≠ GstMatroskaParserResult.error := by
  unfold parser_entry_core
  cases hs : p.status
  case init => exact stage_header_ne_error _ _
  case header => exact stage_header_ne_error _ _
  case data => exact stage_data_ne_error _ _
  case finished => simp

/-- When the overlong id or size field belongs to the first element of the
invocation, the whole feed is a no-op: result `Ok`, parser (offset and
consume included) returned unchanged. -/
theorem entry_overlong_noop (p : GstMatroskaParser) (avail : List Nat)
    (hst : p.status = GstMatroskaParserStatus.data)
    (h : 8 < gst_matroska_parser_read_len (byteAt avail p.offset) ∨
      8 < gst_matroska_parser_read_len
        (byteAt avail (p.offset + gst_matroska_parser_read_len (byteAt avail p.offset)))) :
    gst_matroska_parser_entry (some p) (some avail) =
      (GstMatroskaParserResult.ok, some p) := by
  have hn : gst_matroska_read_one_ebml_info avail p.offset avail.length = none :=
    h.elim (read_overlong_id_none avail p.offset avail.length)
      (read_overlong_size_none avail p.offset avail.length)
  simp only [gst_matroska_parser_entry, parser_entry_core, hst, stage_data,
    gst_matroska_parser_extract_data, extract_dataG, extract_loop, hn,
    save_offset_self]

/-- C2 (amended): a varint id or size field with encoded length greater
than 8 makes `gst_matroska_read_one_ebml_info` fail (the C `return 0`),
and it does so at whatever iteration of the extraction loop the element is
met — also after earlier elements were consumed in the same invocation:
the loop then exits with `Ok`, exactly the insufficient-data outcome,
saving the resume cursor at the offending element's start and consuming
none of its bytes.  The distinct `GST_MATROSKA_PARSER_ERROR` is never
returned on any input, and when the offending element is the first of the
invocation the parser state is completely unchanged. -/
theorem c2_overlong_varint_ok_no_advance :
    (∀ avail pos wsize, 8 < gst_matroska_parser_read_len (byteAt avail pos) →
      gst_matroska_read_one_ebml_info avail pos wsize = none) ∧
    (∀ avail pos wsize,
      8 < gst_matroska_parser_read_len
        (byteAt avail (pos + gst_matroska_parser_read_len (byteAt avail pos))) →
      gst_matroska_read_one_ebml_info avail pos wsize = none) ∧
    (∀ avail fuel p offset lenW,
      (8 < gst_matroska_parser_read_len (byteAt avail offset) ∨
       8 < gst_matroska_parser_read_len
         (byteAt avail (offset + gst_matroska_parser_read_len (byteAt avail offset)))) →
      extract_loop avail (fuel + 1) p offset lenW =
        ((GstMatroskaParserResult.ok, save_offset p offset), false)) ∧
    (∀ p avail, (parser_entry_core p avail).1 ≠ GstMatroskaParserResult.error) ∧
    (∀ p avail, p.status = GstMatroskaParserStatus.data →
      (8 < gst_matroska_parser_read_len (byteAt avail p.offset) ∨
       8 < gst_matroska_parser_read_len
         (byteAt avail (p.offset + gst_matroska_parser_read_len (byteAt avail p.offset)))) →
      gst_matroska_parser_entry (some p) (some avail) =
        (GstMatroskaParserResult.ok, some p)) :=
  ⟨read_overlong_id_none, read_overlong_size_none, extract_loop_overlong_exit,
   parser_entry_ne_error, entry_overlong_noop⟩

theorem c2_overlong_varint_ok_no_advance_witness :
    gst_matroska_read_one_ebml_info [0x00, 0x55, 0x55] 0 3 = none ∧
    gst_matroska_read_one_ebml_info [0x81, 0x00, 0x55] 0 3 = none ∧
    extract_loop [0x00, 0x55, 0x55] (0 + 1) parser_zero 0 3 =
      ((GstMatroskaParserResult.ok, save_offset parser_zero 0), false) ∧
    (parser_entry_core parser_zero []).1 ≠ GstMatroskaParserResult.error ∧
    gst_matroska_parser_entry
      (some { parser_zero with status := GstMatroskaParserStatus.data })
      (some [0x81, 0x00, 0x55]) =
      (GstMatroskaParserResult.ok,
       some { parser_zero with status := GstMatroskaParserStatus.data }) :=
  ⟨c2_overlong_varint_ok_no_advance.1 [0x00, 0x55, 0x55] 0 3 (by decide),
   c2_overlong_varint_ok_no_advance.2.1 [0x81, 0x00, 0x55] 0 3 (by decide),
   c2_overlong_varint_ok_no_advance.2.2.1 [0x00, 0x55, 0x55] 0 parser_zero 0 3
     (Or.inl (by decide)),
   c2_overlong_varint_ok_no_advance.2.2.2.1 parser_zero [],
   c2_overlong_varint_ok_no_advance.2.2.2.2
     { parser_zero with status := GstMatroskaParserStatus.data } [0x81, 0x00, 0x55]
     rfl (Or.inr (by decide))⟩

/-! ## C8 — NULL call arguments -/

/-- C8 counterexample: NULL parser or NULL adapter makes the entry return
`GST_MATROSKA_PARSER_NOT_SUPPORTED` (line 425), not
`GST_MATROSKA_PARSER_ERROR_PARAM` as the claim states (that enum value is
never returned anywhere in the C file). -/
theorem c8_null_args_counterexample :
    (gst_matroska_parser_entry none (some [])).1 =
      GstMatroskaParserResult.not_supported ∧
    (gst_matroska_parser_entry (some parser_zero) none).1 =
      GstMatroskaParserResult.not_supported ∧
    GstMatroskaParserResult.not_supported ≠ GstMatroskaParserResult.error_param := by
  decide

/-- C8 (amended): every call with a NULL parser or NULL byte-window provider
returns `NotSupported` (and the parser, if any, is untouched). -/
theorem c8_null_args_not_supported (p : Option GstMatroskaParser)
    (a : Option (List Nat)) (h : p = none ∨ a = none) :
    gst_matroska_parser_entry p a = (GstMatroskaParserResult.not_supported, p) := by
  rcases h with h | h
  · subst h; rfl
  · subst h; cases p <;> rfl

theorem c8_null_args_not_supported_witness :
    gst_matroska_parser_entry none (some [1, 2, 3]) =
      (GstMatroskaParserResult.not_supported, none) :=
  c8_null_args_not_supported none (some [1, 2, 3]) (Or.inl rfl)

/-! ## C10 — cue leaves with no open cue point -/

/-- C10: a CueTime, CueTrack or CueClusterPosition leaf dispatched while the
cue list is still empty is silently skipped: the parser (cue list and every
scalar field) is returned unchanged, the consumed length stays the full
element length so parsing continues past the element, and no early-return /
error outcome is produced (`dispatch` yields `some`, so the loop simply
proceeds). -/
theorem c10_orphan_cue_leaf_skipped (p : GstMatroskaParser) (avail : List Nat)
    (info : GstMatroskaEbmlInfo) (consume : Nat)
    (hempty : p.array = [] ∧ p.cue_point_num = 0)
    (hid : info.id = GST_MATROSKA_ID_CUETIME ∨ info.id = GST_MATROSKA_ID_CUETRACK ∨
      info.id = GST_MATROSKA_ID_CUECLUSTERPOSITION) :
    dispatch p avail info consume = some (p, consume) := by
  have hup : ∀ f, update_entry p f = p := by
    intro f
    unfold update_entry
    rw [if_neg]
    simp [hempty.1]
  rcases hid with h | h | h <;>
    norm_num [dispatch, h, hup, GST_EBML_ID_HEADER, GST_MATROSKA_ID_SEGMENT,
      GST_MATROSKA_ID_SEEKHEAD, GST_MATROSKA_ID_SEGMENTINFO,
      GST_MATROSKA_ID_TIMECODESCALE, GST_MATROSKA_ID_DURATION,
      GST_MATROSKA_ID_CUES, GST_MATROSKA_ID_POINTENTRY, GST_MATROSKA_ID_CUETIME,
      GST_MATROSKA_ID_CUETRACKPOSITION, GST_MATROSKA_ID_CUECLUSTERPOSITION,
      GST_MATROSKA_ID_CUETRACK, GST_MATROSKA_ID_CLUSTER]

theorem c10_orphan_cue_leaf_skipped_witness :
    dispatch parser_zero [0xB3, 0x81, 0x05]
      (GstMatroskaEbmlInfo.mk 0xB3 1 2 2) 3 = some (parser_zero, 3) :=
  c10_orphan_cue_leaf_skipped parser_zero [0xB3, 0x81, 0x05]
    (GstMatroskaEbmlInfo.mk 0xB3 1 2 2) 3 ⟨rfl, rfl⟩ (Or.inl rfl)

/-! ## C3 — single-shot versus byte-at-a-time feeding -/

/-- C3 (bug evaluation): feeding `mkv_stream` in one call yields `Done` with
`time_scale = 1000000`; feeding the same bytes one byte per invocation also
finishes, but with `time_scale = 0`: on resumption the loop passes the
*total* adapter length (not the length remaining past the resume offset) as
the window size to the header reader, so a resumed invocation consumes the
TimecodeScale element before its payload bytes have arrived and reads past
the mapped window (undefined memory in C, the byte 0 in this model). -/
theorem c3_single_vs_bytewise_divergence :
    (parser_entry_core parser_zero mkv_stream).1 = GstMatroskaParserResult.done ∧
    (parser_entry_core parser_zero mkv_stream).2.time_scale = 1000000 ∧
    (run_feeds (byte_prefixes mkv_stream)).status = GstMatroskaParserStatus.finished ∧
    (run_feeds (byte_prefixes mkv_stream)).time_scale = 0 ∧
    (parser_entry_core parser_zero mkv_stream).2.time_scale ≠
      (run_feeds (byte_prefixes mkv_stream)).time_scale := by
  decide

/-! ## C7 — the Cues region-end boundary -/

theorem save_offset_len (p : GstMatroskaParser) (o : Nat) :
    (save_offset p o).len = p.len := by
  unfold save_offset; split <;> rfl

theorem save_offset_consume (p : GstMatroskaParser) (o : Nat) :
    (save_offset p o).consume = p.consume := by
  unfold save_offset; split <;> rfl

/-- Loop invariant: if the completion boundary has not been passed on entry,
then on any non-`done` exit it still has not been passed (the loop exits
`done` in the very iteration whose update reaches the boundary). -/
theorem extract_loop_boundary (avail : List Nat) (fuel : Nat) :
    ∀ p offset lenW, (p.len = 0 ∨ p.consume < p.len) →
      (extract_loop avail fuel p offset lenW).1.1 ≠ GstMatroskaParserResult.done →
      ((extract_loop avail fuel p offset lenW).1.2.len = 0 ∨
       (extract_loop avail fuel p offset lenW).1.2.consume <
         (extract_loop avail fuel p offset lenW).1.2.len) := by
  induction fuel with
  | zero =>
    intro p offset lenW hinv _
    simpa [extract_loop] using hinv
  | succ n ih =>
    intro p offset lenW hinv
    rw [extract_loop]
    cases hre : gst_matroska_read_one_ebml_info avail offset lenW with
    | none =>
      intro _
      simpa [save_offset_len, save_offset_consume] using hinv
    | some v =>
      rcases v with ⟨consume0, info⟩
      dsimp only
      split
      · intro _
        simpa [save_offset_len, save_offset_consume] using hinv
      · cases hd : dispatch p avail info (adjust_consume consume0 info) with
        | none =>
          intro hnd
          simp at hnd
        | some w =>
          rcases w with ⟨p1, c1⟩
          dsimp only
          split
          · intro hnd
            exact absurd rfl hnd
          · rename_i hnc
            intro hnd
            dsimp only at hnd ⊢
            push_neg at hnc
            refine ih _ _ _ ?_ hnd
            by_cases h0 : p1.len = 0
            · exact Or.inl h0
            · exact Or.inr (hnc h0)

theorem check_id_ne_done (avail : List Nat) (id len : Nat) :
    gst_matroska_parser_check_id avail id len ≠ GstMatroskaParserResult.done := by
  unfold gst_matroska_parser_check_id
  split
  · simp
  · split <;> simp

theorem stage_data_done (p : GstMatroskaParser) (avail : List Nat)
    (h : (stage_data p avail).1 = GstMatroskaParserResult.done) :
    (stage_data p avail).2.status = GstMatroskaParserStatus.finished := by
  unfold stage_data at *
  rcases hres : gst_matroska_parser_extract_data p avail with ⟨res, p'⟩
  cases res <;> simp_all

theorem stage_header_done (p : GstMatroskaParser) (avail : List Nat)
    (h : (stage_header p avail).1 = GstMatroskaParserResult.done) :
    (stage_header p avail).2.status = GstMatroskaParserStatus.finished := by
  revert h
  unfold stage_header
  cases hc : gst_matroska_parser_check_id avail GST_EBML_ID_HEADER 4
  case ok =>
    intro h
    exact stage_data_done _ _ h
  case done =>
    intro _
    exact absurd hc (check_id_ne_done avail GST_EBML_ID_HEADER 4)
  all_goals intro h
  all_goals simp_all

theorem parser_entry_done_finished (p : GstMatroskaParser) (avail : List Nat)
    (h : (parser_entry_core p avail).1 = GstMatroskaParserResult.done) :
    (parser_entry_core p avail).2.status = GstMatroskaParserStatus.finished := by
  revert h
  unfold parser_entry_core
  cases hs : p.status
  case init =>
    intro h
    exact stage_header_done _ _ h
  case header =>
    intro h
    exact stage_header_done _ _ h
  case data =>
    intro h
    exact stage_data_done _ _ h
  case finished =>
    intro h
    simp at h

theorem dispatch_cues (p : GstMatroskaParser) (avail : List Nat)
    (info : GstMatroskaEbmlInfo) (c : Nat)
    (hid : info.id = GST_MATROSKA_ID_CUES) :
    dispatch p avail info c =
      some ({ p with len := p.consume + info.data_offset + info.size },
        info.data_offset) := by
  norm_num [dispatch, hid, GST_EBML_ID_HEADER, GST_MATROSKA_ID_SEGMENT,
    GST_MATROSKA_ID_SEEKHEAD, GST_MATROSKA_ID_SEGMENTINFO,
    GST_MATROSKA_ID_TIMECODESCALE, GST_MATROSKA_ID_DURATION,
    GST_MATROSKA_ID_CUES]

theorem entry_boundary (p : GstMatroskaParser) (avail : List Nat)
    (hst : p.status = GstMatroskaParserStatus.data)
    (hinv : p.len = 0 ∨ p.consume < p.len)
    (hnd : (parser_entry_core p avail).1 ≠ GstMatroskaParserResult.done) :
    (parser_entry_core p avail).2.len = 0 ∨
      (parser_entry_core p avail).2.consume < (parser_entry_core p avail).2.len := by
  have hb := extract_loop_boundary avail (avail.length + 1) p p.offset avail.length hinv
  simp only [parser_entry_core, hst, stage_data, gst_matroska_parser_extract_data,
    extract_dataG] at hnd hb ⊢
  rcases hE : (extract_loop avail (avail.length + 1) p p.offset avail.length).1 with ⟨res, p'⟩
  cases res <;> simp_all

/-- C7 counterexample: on `cues_cluster_stream` the parser records
`cuesRegionEnd` (`parser->len`) = 26 when the Cues header is dispatched, yet
transitions to Finished and returns `Done` with `totalConsumed` = 10 < 26,
because a Cluster element inside the Cues region completes extraction first
— refuting "returns complete exactly when totalConsumed reaches or exceeds
the recorded value". -/
theorem c7_cluster_before_cues_end_counterexample :
    (parser_entry_core parser_zero cues_cluster_stream).1 =
      GstMatroskaParserResult.done ∧
    (parser_entry_core parser_zero cues_cluster_stream).2.status =
      GstMatroskaParserStatus.finished ∧
    (parser_entry_core parser_zero cues_cluster_stream).2.len = 26 ∧
    (parser_entry_core parser_zero cues_cluster_stream).2.consume = 10 ∧
    (parser_entry_core parser_zero cues_cluster_stream).2.consume <
      (parser_entry_core parser_zero cues_cluster_stream).2.len := by
  decide

/-- C7 (amended): (1) when a Cues master header is dispatched the parser
records `parser->len` (`cuesRegionEnd`) = totalConsumed + payloadOffset +
size; (2) the boundary is acted on as soon as reached: an invocation in the
extracting state that starts below the boundary and does not return `Done`
also ends below it (so the parser can only pass the boundary by returning
complete in that very iteration); (3) whenever the entry returns `Done` the
status is Finished.  (A Cluster element may finish extraction before the
boundary is reached, which is the correction to the claim.) -/
theorem c7_cues_region_end_amended :
    (∀ p avail info c, info.id = GST_MATROSKA_ID_CUES →
      dispatch p avail info c =
        some ({ p with len := p.consume + info.data_offset + info.size },
          info.data_offset)) ∧
    (∀ p avail, p.status = GstMatroskaParserStatus.data →
      (p.len = 0 ∨ p.consume < p.len) →
      (parser_entry_core p avail).1 ≠ GstMatroskaParserResult.done →
      ((parser_entry_core p avail).2.len = 0 ∨
       (parser_entry_core p avail).2.consume < (parser_entry_core p avail).2.len)) ∧
    (∀ p avail, (parser_entry_core p avail).1 = GstMatroskaParserResult.done →
      (parser_entry_core p avail).2.status = GstMatroskaParserStatus.finished) :=
  ⟨dispatch_cues, entry_boundary, parser_entry_done_finished⟩

theorem c7_cues_region_end_amended_witness :
    (dispatch parser_zero [] (GstMatroskaEbmlInfo.mk 0x1C53BB6B 16 5 5) 21 =
      some ({ parser_zero with len := 0 + 5 + 16 }, 5)) ∧
    ((parser_entry_core { parser_zero with status := GstMatroskaParserStatus.data }
        []).2.len = 0 ∨
     (parser_entry_core { parser_zero with status := GstMatroskaParserStatus.data }
        []).2.consume <
       (parser_entry_core { parser_zero with status := GstMatroskaParserStatus.data }
        []).2.len) ∧
    (parser_entry_core parser_zero
      [0x1A, 0x45, 0xDF, 0xA3, 0x80, 0x1C, 0x53, 0xBB, 0x6B, 0x90,
       0x1F, 0x43, 0xB6, 0x75, 0x81, 0x00, 0xAA]).2.status =
      GstMatroskaParserStatus.finished :=
  ⟨c7_cues_region_end_amended.1 parser_zero []
      (GstMatroskaEbmlInfo.mk 0x1C53BB6B 16 5 5) 21 rfl,
   c7_cues_region_end_amended.2.1 _ [] rfl (Or.inl rfl) (by decide),
   c7_cues_region_end_amended.2.2 parser_zero _ (by decide)⟩

/-! ## C9 — monotonicity of the cumulative consumed counter -/

theorem update_entry_consume (p : GstMatroskaParser)
    (f : GstMatroskaPointData → GstMatroskaPointData) :
    (update_entry p f).consume = p.consume := by
  unfold update_entry
  split <;> rfl

/-- Every dispatch case except the EBML header leaves `parser->consume`
untouched (the header case resets it to 0, line 281). -/
theorem dispatch_consume (p : GstMatroskaParser) (avail : List Nat)
    (info : GstMatroskaEbmlInfo) (c : Nat) (p1 : GstMatroskaParser) (c1 : Nat)
    (hid : info.id ≠ GST_EBML_ID_HEADER)
    (hd : dispatch p avail info c = some (p1, c1)) :
    p1.consume = p.consume := by
  unfold dispatch at hd
  rw [if_neg hid] at hd
  by_cases h2 : info.id = GST_MATROSKA_ID_SEGMENT
  · rw [if_pos h2] at hd
    simp only [Option.some.injEq, Prod.mk.injEq] at hd
    obtain ⟨hp, -⟩ := hd; subst hp; rfl
  rw [if_neg h2] at hd
  by_cases h3 : info.id = GST_MATROSKA_ID_SEEKHEAD
  · rw [if_pos h3] at hd
    simp only [Option.some.injEq, Prod.mk.injEq] at hd
    obtain ⟨hp, -⟩ := hd; subst hp; rfl
  rw [if_neg h3] at hd
  by_cases h4 : info.id = GST_MATROSKA_ID_SEGMENTINFO
  · rw [if_pos h4] at hd
    simp only [Option.some.injEq, Prod.mk.injEq] at hd
    obtain ⟨hp, -⟩ := hd; subst hp; rfl
  rw [if_neg h4] at hd
  by_cases h5 : info.id = GST_MATROSKA_ID_TIMECODESCALE
  · rw [if_pos h5] at hd
    simp only [Option.some.injEq, Prod.mk.injEq] at hd
    obtain ⟨hp, -⟩ := hd; subst hp; rfl
  rw [if_neg h5] at hd
  by_cases h6 : info.id = GST_MATROSKA_ID_DURATION
  · rw [if_pos h6] at hd
    simp only [Option.some.injEq, Prod.mk.injEq] at hd
    obtain ⟨hp, -⟩ := hd; subst hp; rfl
  rw [if_neg h6] at hd
  by_cases h7 : info.id = GST_MATROSKA_ID_CUES
  · rw [if_pos h7] at hd
    simp only [Option.some.injEq, Prod.mk.injEq] at hd
    obtain ⟨hp, -⟩ := hd; subst hp; rfl
  rw [if_neg h7] at hd
  by_cases h8 : info.id = GST_MATROSKA_ID_POINTENTRY
  · rw [if_pos h8] at hd
    simp only [Option.some.injEq, Prod.mk.injEq] at hd
    obtain ⟨hp, -⟩ := hd; subst hp; rfl
  rw [if_neg h8] at hd
  by_cases h9 : info.id = GST_MATROSKA_ID_CUETIME
  · rw [if_pos h9] at hd
    simp only [Option.some.injEq, Prod.mk.injEq] at hd
    obtain ⟨hp, -⟩ := hd; subst hp
    exact update_entry_consume _ _
  rw [if_neg h9] at hd
  by_cases h10 : info.id = GST_MATROSKA_ID_CUETRACKPOSITION
  · rw [if_pos h10] at hd
    simp only [Option.some.injEq, Prod.mk.injEq] at hd
    obtain ⟨hp, -⟩ := hd; subst hp; rfl
  rw [if_neg h10] at hd
  by_cases h11 : info.id = GST_MATROSKA_ID_CUECLUSTERPOSITION
  · rw [if_pos h11] at hd
    simp only [Option.some.injEq, Prod.mk.injEq] at hd
    obtain ⟨hp, -⟩ := hd; subst hp
    exact update_entry_consume _ _
  rw [if_neg h11] at hd
  by_cases h12 : info.id = GST_MATROSKA_ID_CUETRACK
  · rw [if_pos h12] at hd
    simp only [Option.some.injEq, Prod.mk.injEq] at hd
    obtain ⟨hp, -⟩ := hd; subst hp
    exact update_entry_consume _ _
  rw [if_neg h12] at hd
  by_cases h13 : info.id = GST_MATROSKA_ID_CLUSTER
  · rw [if_pos h13] at hd
    exact Option.noConfusion hd
  rw [if_neg h13] at hd
  simp only [Option.some.injEq, Prod.mk.injEq] at hd
  obtain ⟨hp, -⟩ := hd; subst hp; rfl

/-- Loop invariant: if no EBML-header element is dispatched during the loop
(ghost flag `false`), the cumulative consumed counter never decreases. -/
theorem extract_loop_consume_mono (avail : List Nat) (fuel : Nat) :
    ∀ p offset lenW, (extract_loop avail fuel p offset lenW).2 = false →
      p.consume ≤ (extract_loop avail fuel p offset lenW).1.2.consume := by
  induction fuel with
  | zero =>
    intro p offset lenW _
    simp [extract_loop]
  | succ n ih =>
    intro p offset lenW
    rw [extract_loop]
    cases hre : gst_matroska_read_one_ebml_info avail offset lenW with
    | none =>
      intro _
      simp [save_offset_consume]
    | some v =>
      rcases v with ⟨consume0, info⟩
      dsimp only
      split
      · intro _
        simp [save_offset_consume]
      · cases hd : dispatch p avail info (adjust_consume consume0 info) with
        | none =>
          intro _
          exact Nat.le_refl _
        | some w =>
          rcases w with ⟨p1, c1⟩
          dsimp only
          split
          · intro hflag
            dsimp only at hflag ⊢
            have hid : info.id ≠ GST_EBML_ID_HEADER := by
              simpa using hflag
            have := dispatch_consume p avail info (adjust_consume consume0 info) p1 c1 hid hd
            omega
          · intro hflag
            dsimp only at hflag ⊢
            rw [Bool.or_eq_false_iff] at hflag
            have hid : info.id ≠ GST_EBML_ID_HEADER := by
              simpa using hflag.1
            have h1 := dispatch_consume p avail info (adjust_consume consume0 info) p1 c1 hid hd
            have h2 := ih _ (offset + c1) (lenW - c1) hflag.2
            dsimp only at h2
            omega

/-- C9 counterexample: feeding `seekhead_header_stream` as two windows (first
16 bytes, then all 21) makes `totalConsumed` go from 15 after the first
invocation down to 5 after the second: the second invocation dispatches the
EBML-header element at offset 15, which resets the counter
(`parser->consume = 0`, line 281). -/
theorem c9_consume_decreases_counterexample :
    (run_feeds [seekhead_header_stream.take 16]).consume = 15 ∧
    (run_feeds [seekhead_header_stream.take 16, seekhead_header_stream]).consume = 5 ∧
    ¬((run_feeds [seekhead_header_stream.take 16]).consume ≤
      (run_feeds [seekhead_header_stream.take 16, seekhead_header_stream]).consume) := by
  decide

/-- C9 (amended): across any feed invocation in the extracting state that
dispatches no EBML-header element (ghost flag of the extraction run is
`false`), `totalConsumed` is non-decreasing; dispatching an EBML-header
element resets the counter and can decrease it. -/
theorem c9_consume_monotone_no_header (p : GstMatroskaParser) (avail : List Nat)
    (hst : p.status = GstMatroskaParserStatus.data)
    (hno : (extract_dataG p avail).2 = false) :
    p.consume ≤ (parser_entry_core p avail).2.consume := by
  have hm := extract_loop_consume_mono avail (avail.length + 1) p p.offset
    avail.length hno
  simp only [parser_entry_core, hst, stage_data, gst_matroska_parser_extract_data,
    extract_dataG] at hm ⊢
  rcases hE : (extract_loop avail (avail.length + 1) p p.offset avail.length).1 with ⟨res, p'⟩
  rw [hE] at hm
  cases res <;> simp_all

theorem c9_consume_monotone_no_header_witness :
    ({ parser_zero with status := GstMatroskaParserStatus.data, consume := 3 } :
        GstMatroskaParser).consume ≤
      (parser_entry_core
        { parser_zero with status := GstMatroskaParserStatus.data, consume := 3 }
        []).2.consume :=
  c9_consume_monotone_no_header
    { parser_zero with status := GstMatroskaParserStatus.data, consume := 3 }
    [] rfl (by decide)

end GstMatroska
